import Mathlib

/-!
Shallow embedding of the NovelVerified reasoning core: the constraint data
model from agents/constraint_types.py and the verdict-synthesis, violation
tracking, evaluation and decomposition logic of agents/reasoning_agent.py
(Claude-API variant, namespace ReasoningAgent) and
agents/reasoning_agent_local.py (Ollama variant, namespace
ReasoningAgentLocal).  Confidence values are modelled as rationals; the
structured JSON an external generator returns is modelled by explicit
record and sum types; a failed external call is an Option none.
-/

namespace NovelVerified

/-- Categories of constraints for narrative reasoning
(constraint_types.py, class ConstraintType). -/
inductive ConstraintType
  | temporal
  | capability
  | commitment
  | world_rule
  | psychological
  | factual
  deriving DecidableEq, Repr

/-- Possible verdicts for claims and sub-claims
(constraint_types.py, class Verdict). -/
inductive Verdict
  | supported
  | contradicted
  | undetermined
  deriving DecidableEq, Repr

/-- An atomic sub-claim extracted from the main claim
(constraint_types.py, dataclass SubClaim). -/
structure SubClaim where
  id : String
  text : String
  constraint_type : ConstraintType
  parent_claim_id : String
  supporting_excerpts : List String
  contradicting_excerpts : List String
  verdict : Option Verdict
  confidence : ℚ
  reasoning : String
  deriving DecidableEq, Repr

/-- A detected constraint violation
(constraint_types.py, dataclass ConstraintViolation). -/
structure ConstraintViolation where
  sub_claim_id : String
  constraint_type : ConstraintType
  description : String
  novel_excerpt : String
  novel_position : String
  severity : String
  deriving DecidableEq, Repr

/-- A confidence field of a parsed external JSON response: absent key,
a JSON number, or a value on which Python float() raises. -/
inductive ConfVal
  | missing
  | num (q : ℚ)
  | nonNumeric
  deriving DecidableEq, Repr

/-- Parsed JSON object returned by the support-seeking call. -/
structure SupportResponse where
  support_confidence : ConfVal
  support_reasoning : Option String
  supporting_excerpts : Option (List String)
  deriving DecidableEq, Repr

/-- Parsed JSON object returned by the contradiction-seeking call. -/
structure ContradictionResponse where
  contradiction_confidence : ConfVal
  contradiction_reasoning : Option String
  contradicting_excerpts : Option (List String)
  violation_type : Option String
  deriving DecidableEq, Repr

/-- One item of the JSON array returned by the decomposition call:
optional id, text and type fields. -/
structure DecompItem where
  id : Option String
  text : Option String
  type : Option String
  deriving DecidableEq, Repr

/-- Outcome of the decomposition call as seen by decompose_claim:
the call failed (returned None or a falsy value), returned JSON that is
not a list, or returned a list of items. -/
inductive DecompResult
  | failure
  | nonList
  | items (l : List DecompItem)
  deriving DecidableEq, Repr

/-- Python ConstraintType(value): the enum member whose value equals the
string, if any (constraint_types.py enum values). -/
def constraintTypeOfString (s : String) : Option ConstraintType :=
  if s = "temporal" then some ConstraintType.temporal
  else if s = "capability" then some ConstraintType.capability
  else if s = "commitment" then some ConstraintType.commitment
  else if s = "world_rule" then some ConstraintType.world_rule
  else if s = "psychological" then some ConstraintType.psychological
  else if s = "factual" then some ConstraintType.factual
  else none

/-- Model of the Python str.lower method (character-wise lowercasing). -/
def lowerString (s : String) : String :=
  ⟨s.data.map Char.toLower⟩

/-- ConstraintType(s.lower()) with the ValueError branch mapped to
FACTUAL, as both decompose_claim variants do. -/
def parseConstraintType (s : String) : ConstraintType :=
  (constraintTypeOfString (lowerString s)).getD ConstraintType.factual

/-- Build a SubClaim as both decompose_claim variants do: evidence lists
empty, no verdict yet, confidence 0, empty reasoning. -/
def mkSubClaim (id text : String) (ct : ConstraintType) (parent : String) : SubClaim :=
  ⟨id, text, ct, parent, [], [], none, 0, ""⟩

end NovelVerified

namespace NovelVerified.ReasoningAgent

open NovelVerified

/-- Anti-bias threshold (reasoning_agent.py line 78). -/
def CONTRADICTION_THRESHOLD : ℚ := 0.4

/-- Anti-bias threshold (reasoning_agent.py line 79). -/
def STRONG_SUPPORT_THRESHOLD : ℚ := 0.7

/-- Anti-bias threshold (reasoning_agent.py line 80). -/
def WEAK_CONTRADICTION_THRESHOLD : ℚ := 0.25

/-- Verdict synthesis of reasoning_agent.py, synthesize_verdict
(lines 245 to 284), returning verdict, confidence and reasoning. -/
def synthesize_verdict (support_conf : ℚ) (support_reason : String)
    (contradict_conf : ℚ) (contradict_reason : String)
    (violation_type : String) (sub_claims : List SubClaim) :
    Verdict × ℚ × String :=
  if contradict_conf > CONTRADICTION_THRESHOLD then
    (Verdict.contradicted, min 0.95 (contradict_conf + 0.1),
      "Contradiction found (" ++ violation_type ++ "): " ++ contradict_reason)
  else if support_conf > STRONG_SUPPORT_THRESHOLD ∧
      contradict_conf < WEAK_CONTRADICTION_THRESHOLD then
    (Verdict.supported, support_conf * 0.9,
      "Evidence supports claim: " ++ support_reason)
  else
    let sub_verdicts := sub_claims.filterMap (fun sc => sc.verdict)
    let has_support := sub_verdicts.any (fun v => v == Verdict.supported)
    let has_contradict := sub_verdicts.any (fun v => v == Verdict.contradicted)
    let reasoning :=
      if has_support && has_contradict then
        "Mixed evidence: some sub-claims supported, others contradicted"
      else if support_conf > contradict_conf then
        "Weak support without clear contradiction: " ++ support_reason
      else
        "Insufficient evidence to verify claim"
    (Verdict.undetermined, max 0.3 (min support_conf 0.5), reasoning)

/-- Severity assigned to a recorded violation in process_claim
(reasoning_agent.py line 354). -/
def severityOf (contradict_conf : ℚ) : String :=
  if contradict_conf > 0.6 then "DEFINITE"
  else if contradict_conf > 0.4 then "LIKELY"
  else "POSSIBLE"

/-- ConstraintType(violation_type) if violation_type is one of the enum
values, else FACTUAL (reasoning_agent.py line 350; no lowercasing here). -/
def violationTypeToConstraint (violation_type : String) : ConstraintType :=
  (constraintTypeOfString violation_type).getD ConstraintType.factual

/-- Violation tracking of process_claim (reasoning_agent.py lines 347 to
355): at most one claim-level ConstraintViolation is appended to the fresh
analysis. -/
def track_violations (contradict_conf : ℚ) (contradict_reason : String)
    (contradict_excerpts : List String) (violation_type : String) :
    List ConstraintViolation :=
  if contradict_conf > 0.3 ∧ violation_type ≠ "none" then
    [⟨"MAIN", violationTypeToConstraint violation_type, contradict_reason,
      contradict_excerpts.headD "", "UNKNOWN", severityOf contradict_conf⟩]
  else []

/-- The fields of a ClaimAnalysis populated by the violation-tracking and
synthesis steps of process_claim. -/
structure ProcessResult where
  support_score : ℚ
  contradiction_score : ℚ
  violations : List ConstraintViolation
  verdict : Verdict
  confidence : ℚ
  reasoning : String
  deriving DecidableEq, Repr

/-- Core of process_claim (reasoning_agent.py lines 343 to 362): given the
dual-perspective evaluation outputs and the decomposed sub-claims, record
violations and synthesize the verdict into the claim analysis. -/
def process_claim (support_conf : ℚ) (support_reason : String)
    (contradict_conf : ℚ) (contradict_reason : String)
    (contradict_excerpts : List String) (violation_type : String)
    (sub_claims : List SubClaim) : ProcessResult :=
  let violations :=
    track_violations contradict_conf contradict_reason contradict_excerpts violation_type
  let synth :=
    synthesize_verdict support_conf support_reason contradict_conf
      contradict_reason violation_type sub_claims
  ⟨support_conf, contradict_conf, violations, synth.1, synth.2.1, synth.2.2⟩

/-- Outcome of evaluate_for_support: either a returned triple, or an
uncaught exception from float() on a non-numeric confidence value. -/
inductive EvalSupportOutcome
  | ok (conf : ℚ) (reasoning : String) (excerpts : List String)
  | raised
  deriving DecidableEq, Repr

/-- evaluate_for_support (reasoning_agent.py lines 189 to 210): the none
case models call_llm returning None or a falsy parse result; otherwise the
confidence field goes through float() with default 0.0 for a missing key,
and float() raising on a non-numeric value propagates. -/
def evaluate_for_support (result : Option SupportResponse) : EvalSupportOutcome :=
  match result with
  | none => EvalSupportOutcome.ok 0 "Failed to analyze support" []
  | some r =>
    match r.support_confidence with
    | ConfVal.missing =>
      EvalSupportOutcome.ok 0 (r.support_reasoning.getD "No reasoning")
        (r.supporting_excerpts.getD [])
    | ConfVal.num q =>
      EvalSupportOutcome.ok q (r.support_reasoning.getD "No reasoning")
        (r.supporting_excerpts.getD [])
    | ConfVal.nonNumeric => EvalSupportOutcome.raised

/-- Outcome of evaluate_for_contradiction: a returned quadruple or an
uncaught float() exception. -/
inductive EvalContraOutcome
  | ok (conf : ℚ) (reasoning : String) (excerpts : List String) (violation : String)
  | raised
  deriving DecidableEq, Repr

/-- evaluate_for_contradiction (reasoning_agent.py lines 213 to 238). -/
def evaluate_for_contradiction (result : Option ContradictionResponse) :
    EvalContraOutcome :=
  match result with
  | none => EvalContraOutcome.ok 0 "Failed to analyze contradiction" [] "none"
  | some r =>
    match r.contradiction_confidence with
    | ConfVal.missing =>
      EvalContraOutcome.ok 0 (r.contradiction_reasoning.getD "No reasoning")
        (r.contradicting_excerpts.getD []) (r.violation_type.getD "none")
    | ConfVal.num q =>
      EvalContraOutcome.ok q (r.contradiction_reasoning.getD "No reasoning")
        (r.contradicting_excerpts.getD []) (r.violation_type.getD "none")
    | ConfVal.nonNumeric => EvalContraOutcome.raised

/-- The single-subclaim fallback used by decompose_claim in both variants:
the whole claim text as one FACTUAL sub-claim. -/
def fallbackSubClaim (claim_text claim_id : String) : SubClaim :=
  mkSubClaim "SC1" claim_text ConstraintType.factual claim_id

/-- Loop body of decompose_claim (reasoning_agent.py lines 163 to 175):
every item is appended; a missing text field becomes the empty string, a
missing id becomes a sequential SC name, a missing type defaults to
factual. -/
def decomposeStep (claim_id : String) (acc : List SubClaim) (item : DecompItem) :
    List SubClaim :=
  acc ++ [mkSubClaim (item.id.getD ("SC" ++ toString (acc.length + 1)))
    (item.text.getD "")
    (parseConstraintType (item.type.getD "factual"))
    claim_id]

/-- decompose_claim (reasoning_agent.py lines 139 to 182): fall back to a
single synthetic sub-claim when the call fails, the result is not a list,
the list is empty, or the loop produced nothing. -/
def decompose_claim (claim_text claim_id : String) (result : DecompResult) :
    List SubClaim :=
  match result with
  | DecompResult.failure => [fallbackSubClaim claim_text claim_id]
  | DecompResult.nonList => [fallbackSubClaim claim_text claim_id]
  | DecompResult.items l =>
    if l.isEmpty then [fallbackSubClaim claim_text claim_id]
    else
      let sub_claims := l.foldl (decomposeStep claim_id) []
      if sub_claims.isEmpty then [fallbackSubClaim claim_text claim_id]
      else sub_claims

end NovelVerified.ReasoningAgent

namespace NovelVerified.ReasoningAgentLocal

open NovelVerified

/-- Anti-bias threshold (reasoning_agent_local.py line 62). -/
def CONTRADICTION_THRESHOLD : ℚ := 0.4

/-- Anti-bias threshold (reasoning_agent_local.py line 63). -/
def STRONG_SUPPORT_THRESHOLD : ℚ := 0.35

/-- Anti-bias threshold (reasoning_agent_local.py line 64). -/
def WEAK_CONTRADICTION_THRESHOLD : ℚ := 0.2

/-- safe_float (reasoning_agent_local.py lines 67 to 74): None and values
on which float() raises map to the default, numbers pass through. -/
def safe_float (value : ConfVal) (default : ℚ) : ℚ :=
  match value with
  | ConfVal.missing => default
  | ConfVal.num q => q
  | ConfVal.nonNumeric => default

/-- get_default_response for the support stage
(reasoning_agent_local.py lines 138 to 143). -/
def default_support_response : SupportResponse :=
  ⟨ConfVal.num 0.3,
   some "Unable to parse LLM response - using conservative default",
   some []⟩

/-- get_default_response for the contradict stage
(reasoning_agent_local.py lines 144 to 150). -/
def default_contradiction_response : ContradictionResponse :=
  ⟨ConfVal.num 0,
   some "Unable to parse LLM response - assuming no contradiction",
   some [],
   some "none"⟩

/-- evaluate_support (reasoning_agent_local.py lines 270 to 289): the none
case models a falsy or non-dict result; the confidence field goes through
safe_float with default 0.3. -/
def evaluate_support (result : Option SupportResponse) : ℚ × String × List String :=
  match result with
  | none => (0.3, "Unable to analyze support", [])
  | some r =>
    (safe_float r.support_confidence 0.3,
     r.support_reasoning.getD "No reasoning",
     r.supporting_excerpts.getD [])

/-- evaluate_contradiction (reasoning_agent_local.py lines 292 to 312):
safe_float default 0.0, violation type defaults to none. -/
def evaluate_contradiction (result : Option ContradictionResponse) :
    ℚ × String × List String × String :=
  match result with
  | none => (0, "Unable to analyze contradiction", [], "none")
  | some r =>
    (safe_float r.contradiction_confidence 0,
     r.contradiction_reasoning.getD "No reasoning",
     r.contradicting_excerpts.getD [],
     r.violation_type.getD "none")

/-- Verdict synthesis of reasoning_agent_local.py, synthesize_verdict
(lines 315 to 356), with the BOOST constant 0.25 inlined as in source. -/
def synthesize_verdict (support_conf : ℚ) (support_reason : String)
    (contradict_conf : ℚ) (contradict_reason : String)
    (violation_type : String) : Verdict × ℚ × String :=
  if contradict_conf > CONTRADICTION_THRESHOLD then
    (Verdict.contradicted, min 0.95 (contradict_conf + 0.25),
      "Contradiction (" ++ violation_type ++ "): " ++ contradict_reason)
  else if support_conf > STRONG_SUPPORT_THRESHOLD ∧
      contradict_conf < WEAK_CONTRADICTION_THRESHOLD then
    (Verdict.supported, min 0.95 (support_conf + 0.25),
      "Evidence supports: " ++ support_reason)
  else if support_conf ≥ 0.3 ∧ contradict_conf < 0.2 then
    (Verdict.supported, min 0.9 (support_conf + 0.2),
      "Evidence supports: " ++ support_reason)
  else if support_conf > contradict_conf then
    (Verdict.supported, min 0.9 (support_conf + 0.15),
      "Evidence supports: " ++ support_reason)
  else if contradict_conf > support_conf then
    (Verdict.contradicted, min 0.9 (contradict_conf + 0.15),
      "Contradiction (" ++ violation_type ++ "): " ++ contradict_reason)
  else
    (Verdict.supported, 0.85, "Evidence suggests support: " ++ support_reason)

/-- Loop body of the local decompose_claim (reasoning_agent_local.py lines
236 to 256): an item whose text field is missing or empty is skipped;
otherwise the sub-claim is appended as in the other variant. -/
def decomposeStep (claim_id : String) (acc : List SubClaim) (item : DecompItem) :
    List SubClaim :=
  let ctype := parseConstraintType (item.type.getD "factual")
  let text := item.text.getD ""
  if text = "" then acc
  else acc ++ [mkSubClaim (item.id.getD ("SC" ++ toString (acc.length + 1)))
    text ctype claim_id]

/-- decompose_claim (reasoning_agent_local.py lines 216 to 267). -/
def decompose_claim (claim_text claim_id : String) (result : DecompResult) :
    List SubClaim :=
  match result with
  | DecompResult.failure => [ReasoningAgent.fallbackSubClaim claim_text claim_id]
  | DecompResult.nonList => [ReasoningAgent.fallbackSubClaim claim_text claim_id]
  | DecompResult.items l =>
    if l.isEmpty then [ReasoningAgent.fallbackSubClaim claim_text claim_id]
    else
      let sub_claims := l.foldl (decomposeStep claim_id) []
      if sub_claims.isEmpty then [ReasoningAgent.fallbackSubClaim claim_text claim_id]
      else sub_claims

end NovelVerified.ReasoningAgentLocal

open NovelVerified

/-- Claim C1: in the Claude-variant synthesize_verdict, whenever
contradiction confidence exceeds 0.4 the verdict is CONTRADICTED with
confidence min 0.95 (contradiction confidence + 0.1), regardless of the
support confidence: rule 1 fires before rule 2. -/
theorem C1_contradiction_dominance (s : ℚ) (sr : String) (c : ℚ) (cr : String)
    (vt : String) (subs : List SubClaim) (h : c > 0.4) :
    ReasoningAgent.synthesize_verdict s sr c cr vt subs =
      (Verdict.contradicted, min 0.95 (c + 0.1),
        "Contradiction found (" ++ vt ++ "): " ++ cr) := by
  unfold ReasoningAgent.synthesize_verdict ReasoningAgent.CONTRADICTION_THRESHOLD
  rw [if_pos h]

/-- Witness for C1: support 0.8 and contradiction 0.5 yield CONTRADICTED
with confidence 0.6. -/
theorem C1_witness :
    (0.5 : ℚ) > 0.4 ∧
    ReasoningAgent.synthesize_verdict 0.8 "strong support" 0.5 "timeline conflict"
        "temporal" [] =
      (Verdict.contradicted, 0.6,
        "Contradiction found (temporal): timeline conflict") := by
  constructor
  · with_unfolding_all decide
  · rw [C1_contradiction_dominance 0.8 "strong support" 0.5 "timeline conflict"
      "temporal" [] (by with_unfolding_all decide)]
    with_unfolding_all decide

/-- Claim C2: in the Claude-variant synthesize_verdict, when contradiction
confidence is at most 0.4 the verdict is SUPPORTED exactly when support
confidence exceeds 0.7 and contradiction confidence is below 0.25, in
which case the confidence is support confidence times 0.9, which is
strictly below the raw support confidence. -/
theorem C2_strong_clean_support (s : ℚ) (sr : String) (c : ℚ) (cr : String)
    (vt : String) (subs : List SubClaim) (h : c ≤ 0.4) :
    ((ReasoningAgent.synthesize_verdict s sr c cr vt subs).1 = Verdict.supported ↔
      (s > 0.7 ∧ c < 0.25)) ∧
    (s > 0.7 → c < 0.25 →
      ReasoningAgent.synthesize_verdict s sr c cr vt subs =
        (Verdict.supported, s * 0.9, "Evidence supports claim: " ++ sr) ∧
      s * 0.9 < s) := by
  have hnc : ¬ (c > (0.4 : ℚ)) := not_lt.mpr h
  unfold ReasoningAgent.synthesize_verdict ReasoningAgent.CONTRADICTION_THRESHOLD
    ReasoningAgent.STRONG_SUPPORT_THRESHOLD ReasoningAgent.WEAK_CONTRADICTION_THRESHOLD
  rw [if_neg hnc]
  by_cases h2 : s > (0.7 : ℚ) ∧ c < (0.25 : ℚ)
  · rw [if_pos h2]
    exact ⟨by simp [h2], fun hs _ => ⟨rfl, by nlinarith [h2.1]⟩⟩
  · rw [if_neg h2]
    exact ⟨by simp [h2], fun hs hc => absurd ⟨hs, hc⟩ h2⟩

/-- Witness for C2: support 0.8 and contradiction 0.1 yield SUPPORTED with
confidence 0.72, which is strictly below 0.8. -/
theorem C2_witness :
    (0.1 : ℚ) ≤ 0.4 ∧
    ReasoningAgent.synthesize_verdict 0.8 "clear evidence" 0.1 "none found" "none" [] =
      (Verdict.supported, 0.72, "Evidence supports claim: clear evidence") ∧
    (0.72 : ℚ) < 0.8 := by
  refine ⟨by with_unfolding_all decide, ?_, by with_unfolding_all decide⟩
  have h := (C2_strong_clean_support 0.8 "clear evidence" 0.1 "none found" "none" []
    (by with_unfolding_all decide)).2
    (by with_unfolding_all decide) (by with_unfolding_all decide)
  rw [h.1]
  with_unfolding_all decide

/-- Claim C3: in the Claude-variant synthesize_verdict, when neither the
contradiction-dominance rule nor the strong-clean-support rule fires, the
verdict is UNDETERMINED with confidence max 0.3 (min support 0.5), which
always lies between 0.3 and 0.5. -/
theorem C3_undetermined_band (s : ℚ) (sr : String) (c : ℚ) (cr : String)
    (vt : String) (subs : List SubClaim)
    (h1 : ¬ c > 0.4) (h2 : ¬ (s > 0.7 ∧ c < 0.25)) :
    (ReasoningAgent.synthesize_verdict s sr c cr vt subs).1 = Verdict.undetermined ∧
    (ReasoningAgent.synthesize_verdict s sr c cr vt subs).2.1 = max 0.3 (min s 0.5) ∧
    0.3 ≤ (ReasoningAgent.synthesize_verdict s sr c cr vt subs).2.1 ∧
    (ReasoningAgent.synthesize_verdict s sr c cr vt subs).2.1 ≤ 0.5 := by
  unfold ReasoningAgent.synthesize_verdict ReasoningAgent.CONTRADICTION_THRESHOLD
    ReasoningAgent.STRONG_SUPPORT_THRESHOLD ReasoningAgent.WEAK_CONTRADICTION_THRESHOLD
  rw [if_neg h1, if_neg h2]
  refine ⟨rfl, rfl, le_max_left _ _, max_le (by norm_num) (min_le_right _ _)⟩

/-- Witness for C3: support 0.6 and contradiction 0.1 yield UNDETERMINED
with confidence 0.5. -/
theorem C3_witness :
    ¬ ((0.1 : ℚ) > 0.4) ∧ ¬ ((0.6 : ℚ) > 0.7 ∧ (0.1 : ℚ) < 0.25) ∧
    (ReasoningAgent.synthesize_verdict 0.6 "weak evidence" 0.1 "nothing found"
      "none" []).1 = Verdict.undetermined ∧
    (ReasoningAgent.synthesize_verdict 0.6 "weak evidence" 0.1 "nothing found"
      "none" []).2.1 = 0.5 := by
  refine ⟨by with_unfolding_all decide, by with_unfolding_all decide, ?_, ?_⟩
  · exact (C3_undetermined_band 0.6 "weak evidence" 0.1 "nothing found" "none" []
      (by with_unfolding_all decide) (by with_unfolding_all decide)).1
  · rw [(C3_undetermined_band 0.6 "weak evidence" 0.1 "nothing found" "none" []
      (by with_unfolding_all decide) (by with_unfolding_all decide)).2.1]
    with_unfolding_all decide

/-- Claim C4: process_claim records a ConstraintViolation exactly when the
contradiction confidence exceeds 0.3 (exclusive boundary) and the
violation category is not none, and the recorded severity is the fixed
step function: DEFINITE above 0.6, LIKELY on (0.4, 0.6], POSSIBLE on
(0.3, 0.4]. -/
theorem C4_violation_recording (c : ℚ) (cr : String) (exc : List String) (vt : String) :
    (∀ s sr subs, (ReasoningAgent.process_claim s sr c cr exc vt subs).violations =
      ReasoningAgent.track_violations c cr exc vt) ∧
    (ReasoningAgent.track_violations c cr exc vt ≠ [] ↔ (c > 0.3 ∧ vt ≠ "none")) ∧
    (c > 0.3 → vt ≠ "none" →
      ReasoningAgent.track_violations c cr exc vt =
        [⟨"MAIN", ReasoningAgent.violationTypeToConstraint vt, cr, exc.headD "",
          "UNKNOWN", ReasoningAgent.severityOf c⟩]) ∧
    (c > 0.6 → ReasoningAgent.severityOf c = "DEFINITE") ∧
    (c > 0.4 → c ≤ 0.6 → ReasoningAgent.severityOf c = "LIKELY") ∧
    (c > 0.3 → c ≤ 0.4 → ReasoningAgent.severityOf c = "POSSIBLE") := by
  refine ⟨fun s sr subs => rfl, ?_, ?_, ?_, ?_, ?_⟩
  · unfold ReasoningAgent.track_violations
    by_cases h : c > (0.3 : ℚ) ∧ vt ≠ "none"
    · rw [if_pos h]; simp [h]
    · rw [if_neg h]; simp [h]
  · intro h1 h2
    unfold ReasoningAgent.track_violations
    rw [if_pos ⟨h1, h2⟩]
  · intro h
    unfold ReasoningAgent.severityOf
    rw [if_pos h]
  · intro h1 h2
    unfold ReasoningAgent.severityOf
    rw [if_neg (not_lt.mpr h2), if_pos h1]
  · intro h1 h2
    unfold ReasoningAgent.severityOf
    rw [if_neg (not_lt.mpr (h2.trans (by norm_num))), if_neg (not_lt.mpr h2)]

/-- Witness for C4: confidence 0.65 with category capability records one
DEFINITE violation; 0.45 maps to LIKELY; 0.32 maps to POSSIBLE; exactly
0.3 records nothing. -/
theorem C4_witness :
    ReasoningAgent.track_violations 0.65 "claims mastery" ["he had never fought"]
        "capability" =
      [⟨"MAIN", ConstraintType.capability, "claims mastery", "he had never fought",
        "UNKNOWN", "DEFINITE"⟩] ∧
    ReasoningAgent.severityOf 0.45 = "LIKELY" ∧
    ReasoningAgent.severityOf 0.32 = "POSSIBLE" ∧
    ReasoningAgent.track_violations 0.3 "r" ["e"] "capability" = [] := by
  refine ⟨?_, ?_, ?_, ?_⟩
  · rw [(C4_violation_recording 0.65 "claims mastery" ["he had never fought"]
      "capability").2.2.1 (by with_unfolding_all decide) (by with_unfolding_all decide)]
    with_unfolding_all decide
  · exact (C4_violation_recording 0.45 "r" [] "none").2.2.2.2.1
      (by with_unfolding_all decide) (by with_unfolding_all decide)
  · exact (C4_violation_recording 0.32 "r" [] "none").2.2.2.2.2
      (by with_unfolding_all decide) (by with_unfolding_all decide)
  · by_contra hne
    exact absurd ((C4_violation_recording 0.3 "r" ["e"] "capability").2.1.mp hne)
      (by with_unfolding_all decide)

/-- Claim C5: whenever a completed claim analysis contains a violation of
severity DEFINITE, the final verdict synthesized for that claim is
CONTRADICTED, since DEFINITE forces contradiction confidence above 0.6,
which exceeds the 0.4 dominance threshold. -/
theorem C5_definite_violation_contradicted (s : ℚ) (sr : String) (c : ℚ) (cr : String)
    (exc : List String) (vt : String) (subs : List SubClaim)
    (h : ∃ v ∈ (ReasoningAgent.process_claim s sr c cr exc vt subs).violations,
      v.severity = "DEFINITE") :
    (ReasoningAgent.process_claim s sr c cr exc vt subs).verdict =
      Verdict.contradicted := by
  obtain ⟨v, hv, hsev⟩ := h
  have hviol : (ReasoningAgent.process_claim s sr c cr exc vt subs).violations =
      ReasoningAgent.track_violations c cr exc vt := rfl
  rw [hviol] at hv
  by_cases hcond : c > (0.3 : ℚ) ∧ vt ≠ "none"
  · have hv' : v = ⟨"MAIN", ReasoningAgent.violationTypeToConstraint vt, cr,
        exc.headD "", "UNKNOWN", ReasoningAgent.severityOf c⟩ := by
      unfold ReasoningAgent.track_violations at hv
      rw [if_pos hcond] at hv
      simpa using hv
    rw [hv'] at hsev
    have hsev' : ReasoningAgent.severityOf c = "DEFINITE" := hsev
    have hc6 : c > (0.6 : ℚ) := by
      by_contra hle
      unfold ReasoningAgent.severityOf at hsev'
      rw [if_neg hle] at hsev'
      by_cases h4 : c > (0.4 : ℚ)
      · rw [if_pos h4] at hsev'
        exact absurd hsev' (by decide)
      · rw [if_neg h4] at hsev'
        exact absurd hsev' (by decide)
    have hverd : (ReasoningAgent.process_claim s sr c cr exc vt subs).verdict =
        (ReasoningAgent.synthesize_verdict s sr c cr vt subs).1 := rfl
    rw [hverd]
    unfold ReasoningAgent.synthesize_verdict ReasoningAgent.CONTRADICTION_THRESHOLD
    rw [if_pos (by linarith : c > (0.4 : ℚ))]
  · exfalso
    unfold ReasoningAgent.track_violations at hv
    rw [if_neg hcond] at hv
    simp at hv

/-- Witness for C5: support 0.2 with contradiction 0.65 and category
capability records a DEFINITE violation and the verdict is CONTRADICTED. -/
theorem C5_witness :
    (∃ v ∈ (ReasoningAgent.process_claim 0.2 "sr" 0.65 "cr" ["e"] "capability"
      []).violations, v.severity = "DEFINITE") ∧
    (ReasoningAgent.process_claim 0.2 "sr" 0.65 "cr" ["e"] "capability" []).verdict =
      Verdict.contradicted := by
  have hex : ∃ v ∈ (ReasoningAgent.process_claim 0.2 "sr" 0.65 "cr" ["e"]
      "capability" []).violations, v.severity = "DEFINITE" := by
    with_unfolding_all decide
  exact ⟨hex, C5_definite_violation_contradicted 0.2 "sr" 0.65 "cr" ["e"]
    "capability" [] hex⟩

/-- Claim C10: every violation recorded by process_claim is claim-level,
with the MAIN sentinel sub-claim id and the UNKNOWN position, and at most
one violation is recorded per claim, so the violations list has length
zero or one. -/
theorem C10_claim_level_violations (s : ℚ) (sr : String) (c : ℚ) (cr : String)
    (exc : List String) (vt : String) (subs : List SubClaim) :
    ((ReasoningAgent.process_claim s sr c cr exc vt subs).violations = [] ∨
      ∃ v, (ReasoningAgent.process_claim s sr c cr exc vt subs).violations = [v] ∧
        v.sub_claim_id = "MAIN" ∧ v.novel_position = "UNKNOWN") ∧
    (ReasoningAgent.process_claim s sr c cr exc vt subs).violations.length ≤ 1 := by
  have hviol : (ReasoningAgent.process_claim s sr c cr exc vt subs).violations =
      ReasoningAgent.track_violations c cr exc vt := rfl
  rw [hviol]
  unfold ReasoningAgent.track_violations
  by_cases hcond : c > (0.3 : ℚ) ∧ vt ≠ "none"
  · rw [if_pos hcond]
    exact ⟨Or.inr ⟨_, rfl, rfl, rfl⟩, by simp⟩
  · rw [if_neg hcond]
    exact ⟨Or.inl rfl, by simp⟩

/-- Counterexample to C6 as stated: in the Claude-variant decompose_claim,
an item whose text field is missing is NOT dropped; it is kept as a
sub-claim with empty text, which differs from the full claim text. -/
theorem C6_counterexample :
    ReasoningAgent.decompose_claim "the full claim text" "CID"
        (DecompResult.items [⟨some "SC1", none, some "temporal"⟩]) =
      [mkSubClaim "SC1" "" ConstraintType.temporal "CID"] ∧
    (mkSubClaim "SC1" "" ConstraintType.temporal "CID").text ≠
      "the full claim text" := by
  constructor
  · with_unfolding_all decide
  · with_unfolding_all decide

/-- Claim C6 as amended: both decompose variants always return a non-empty
sequence, and on a failed call, a non-list result or an empty list they
return exactly the single FACTUAL sub-claim carrying the full claim text;
an item with an unrecognized type string is coerced to FACTUAL rather than
dropped; an item with a missing or empty text field is dropped by the
local variant, while the Claude variant keeps it with empty text. -/
theorem C6_decompose_amended :
    (∀ ct cid r, ReasoningAgent.decompose_claim ct cid r ≠ []) ∧
    (∀ ct cid r, ReasoningAgentLocal.decompose_claim ct cid r ≠ []) ∧
    (∀ ct cid,
      ReasoningAgent.decompose_claim ct cid DecompResult.failure =
        [ReasoningAgent.fallbackSubClaim ct cid] ∧
      ReasoningAgent.decompose_claim ct cid DecompResult.nonList =
        [ReasoningAgent.fallbackSubClaim ct cid] ∧
      ReasoningAgent.decompose_claim ct cid (DecompResult.items []) =
        [ReasoningAgent.fallbackSubClaim ct cid] ∧
      ReasoningAgentLocal.decompose_claim ct cid DecompResult.failure =
        [ReasoningAgent.fallbackSubClaim ct cid] ∧
      ReasoningAgentLocal.decompose_claim ct cid DecompResult.nonList =
        [ReasoningAgent.fallbackSubClaim ct cid] ∧
      ReasoningAgentLocal.decompose_claim ct cid (DecompResult.items []) =
        [ReasoningAgent.fallbackSubClaim ct cid] ∧
      ReasoningAgent.fallbackSubClaim ct cid =
        mkSubClaim "SC1" ct ConstraintType.factual cid) ∧
    (∀ cid acc item, item.text = none ∨ item.text = some "" →
      ReasoningAgentLocal.decomposeStep cid acc item = acc) ∧
    (∀ cid acc item,
      ReasoningAgent.decomposeStep cid acc item =
        acc ++ [mkSubClaim (item.id.getD ("SC" ++ toString (acc.length + 1)))
          (item.text.getD "")
          (parseConstraintType (item.type.getD "factual")) cid]) ∧
    (∀ ty, constraintTypeOfString (lowerString ty) = none →
      parseConstraintType ty = ConstraintType.factual) := by
  refine ⟨?_, ?_, ?_, ?_, fun cid acc item => rfl, ?_⟩
  · intro ct cid r
    cases r with
    | failure => simp [ReasoningAgent.decompose_claim]
    | nonList => simp [ReasoningAgent.decompose_claim]
    | items l =>
      have hred : ReasoningAgent.decompose_claim ct cid (DecompResult.items l) =
          (if l.isEmpty then [ReasoningAgent.fallbackSubClaim ct cid]
           else
             let sub_claims := l.foldl (ReasoningAgent.decomposeStep cid) []
             if sub_claims.isEmpty then [ReasoningAgent.fallbackSubClaim ct cid]
             else sub_claims) := rfl
      rw [hred]
      by_cases hl : l.isEmpty
      · rw [if_pos hl]; simp
      · rw [if_neg hl]
        by_cases hs : (l.foldl (ReasoningAgent.decomposeStep cid) []).isEmpty
        · rw [if_pos hs]; simp
        · rw [if_neg hs]
          intro hcontra
          rw [hcontra] at hs
          exact hs rfl
  · intro ct cid r
    cases r with
    | failure => simp [ReasoningAgentLocal.decompose_claim]
    | nonList => simp [ReasoningAgentLocal.decompose_claim]
    | items l =>
      have hred : ReasoningAgentLocal.decompose_claim ct cid (DecompResult.items l) =
          (if l.isEmpty then [ReasoningAgent.fallbackSubClaim ct cid]
           else
             let sub_claims := l.foldl (ReasoningAgentLocal.decomposeStep cid) []
             if sub_claims.isEmpty then [ReasoningAgent.fallbackSubClaim ct cid]
             else sub_claims) := rfl
      rw [hred]
      by_cases hl : l.isEmpty
      · rw [if_pos hl]; simp
      · rw [if_neg hl]
        by_cases hs : (l.foldl (ReasoningAgentLocal.decomposeStep cid) []).isEmpty
        · rw [if_pos hs]; simp
        · rw [if_neg hs]
          intro hcontra
          rw [hcontra] at hs
          exact hs rfl
  · exact fun ct cid => ⟨rfl, rfl, rfl, rfl, rfl, rfl, rfl⟩
  · intro cid acc item htext
    unfold ReasoningAgentLocal.decomposeStep
    rcases htext with h | h <;> rw [h] <;> rfl
  · intro ty hty
    unfold parseConstraintType
    rw [hty]
    rfl

/-- Witness for C6: a missing-text item is dropped by the local step, an
unrecognized type string parses to FACTUAL, and a failed call falls back
to the single full-text FACTUAL sub-claim. -/
theorem C6_witness :
    ReasoningAgentLocal.decomposeStep "CID" [] ⟨some "SC1", none, some "temporal"⟩ =
      [] ∧
    parseConstraintType "mythic" = ConstraintType.factual ∧
    ReasoningAgent.decompose_claim "whole claim" "CID" DecompResult.failure =
      [ReasoningAgent.fallbackSubClaim "whole claim" "CID"] := by
  refine ⟨?_, ?_, ?_⟩
  · exact C6_decompose_amended.2.2.2.1 "CID" [] ⟨some "SC1", none, some "temporal"⟩
      (Or.inl rfl)
  · exact C6_decompose_amended.2.2.2.2.2 "mythic" (by with_unfolding_all decide)
  · exact (C6_decompose_amended.2.2.1 "whole claim" "CID").1

/-- Counterexample to C7 as stated: the Claude-variant support evaluator
returns confidence 0.0, not the conservative non-zero 0.3, when the
external call fails. -/
theorem C7_counterexample :
    ReasoningAgent.evaluate_for_support none =
      ReasoningAgent.EvalSupportOutcome.ok 0 "Failed to analyze support" [] ∧
    (0 : ℚ) ≠ 0.3 := by
  exact ⟨rfl, by with_unfolding_all decide⟩

/-- Claim C7 as amended: on failure of the underlying call, the local
variant evaluate_support returns the conservative non-zero default 0.3
with a reasoning string flagging the failure, while the Claude variant
returns 0.0 with a failure-flagging reasoning; in both variants the
contradiction evaluator returns confidence 0.0 with violation category
none on failure. -/
theorem C7_failure_defaults :
    ReasoningAgentLocal.evaluate_support none = (0.3, "Unable to analyze support", []) ∧
    ReasoningAgentLocal.evaluate_support
        (some ReasoningAgentLocal.default_support_response) =
      (0.3, "Unable to parse LLM response - using conservative default", []) ∧
    (0.3 : ℚ) ≠ 0 ∧
    ReasoningAgent.evaluate_for_support none =
      ReasoningAgent.EvalSupportOutcome.ok 0 "Failed to analyze support" [] ∧
    ReasoningAgent.evaluate_for_contradiction none =
      ReasoningAgent.EvalContraOutcome.ok 0 "Failed to analyze contradiction" []
        "none" ∧
    ReasoningAgentLocal.evaluate_contradiction none =
      (0, "Unable to analyze contradiction", [], "none") ∧
    ReasoningAgentLocal.evaluate_contradiction
        (some ReasoningAgentLocal.default_contradiction_response) =
      (0, "Unable to parse LLM response - assuming no contradiction", [], "none") := by
  exact ⟨rfl, rfl, by with_unfolding_all decide, rfl, rfl, rfl, rfl⟩

/-- Counterexample to C8 as stated: an externally supplied confidence of
1.5 is passed through the local evaluate_support unclamped, so the
returned confidence is outside the unit interval. -/
theorem C8_counterexample :
    ReasoningAgentLocal.evaluate_support (some ⟨ConfVal.num 1.5, none, none⟩) =
      (1.5, "No reasoning", []) ∧
    ¬ ((1.5 : ℚ) ≤ 1) := by
  exact ⟨rfl, by with_unfolding_all decide⟩

/-- Claim C8 as amended: non-numeric or missing externally supplied
confidence values are replaced by the stage default in the local variant
through safe_float, but numeric values pass through unclamped even when
outside the unit interval; the Claude variant likewise passes numeric
values through unclamped and its float conversion raises on non-numeric
values instead of defaulting. -/
theorem C8_confidence_passthrough :
    (∀ r e, ReasoningAgentLocal.evaluate_support (some ⟨ConfVal.nonNumeric, r, e⟩) =
      (0.3, r.getD "No reasoning", e.getD [])) ∧
    (∀ r e, ReasoningAgentLocal.evaluate_support (some ⟨ConfVal.missing, r, e⟩) =
      (0.3, r.getD "No reasoning", e.getD [])) ∧
    (∀ q r e, ReasoningAgentLocal.evaluate_support (some ⟨ConfVal.num q, r, e⟩) =
      (q, r.getD "No reasoning", e.getD [])) ∧
    (∀ r e v, ReasoningAgentLocal.evaluate_contradiction
        (some ⟨ConfVal.nonNumeric, r, e, v⟩) =
      (0, r.getD "No reasoning", e.getD [], v.getD "none")) ∧
    (∀ q r e v, ReasoningAgentLocal.evaluate_contradiction
        (some ⟨ConfVal.num q, r, e, v⟩) =
      (q, r.getD "No reasoning", e.getD [], v.getD "none")) ∧
    (∀ r e, ReasoningAgent.evaluate_for_support (some ⟨ConfVal.nonNumeric, r, e⟩) =
      ReasoningAgent.EvalSupportOutcome.raised) ∧
    (∀ q r e, ReasoningAgent.evaluate_for_support (some ⟨ConfVal.num q, r, e⟩) =
      ReasoningAgent.EvalSupportOutcome.ok q (r.getD "No reasoning") (e.getD [])) ∧
    (∀ r e v, ReasoningAgent.evaluate_for_contradiction
        (some ⟨ConfVal.nonNumeric, r, e, v⟩) =
      ReasoningAgent.EvalContraOutcome.raised) := by
  exact ⟨fun r e => rfl, fun r e => rfl, fun q r e => rfl, fun r e v => rfl,
    fun q r e v => rfl, fun r e => rfl, fun q r e => rfl, fun r e v => rfl⟩

/-- Counterexample to C9 as stated: equal support and contradiction
confidences of 0.5 yield CONTRADICTED with confidence 0.75 in the local
synthesize_verdict, not SUPPORTED with 0.85, because the contradiction
dominance rule fires first. -/
theorem C9_counterexample :
    (ReasoningAgentLocal.synthesize_verdict 0.5 "sr" 0.5 "cr" "none").1 =
      Verdict.contradicted ∧
    Verdict.contradicted ≠ Verdict.supported ∧
    (ReasoningAgentLocal.synthesize_verdict 0.5 "sr" 0.5 "cr" "none").2.1 = 0.75 := by
  refine ⟨?_, by decide, ?_⟩ <;> with_unfolding_all decide

/-- Claim C9 as amended: the local synthesize_verdict never returns
UNDETERMINED; exactly equal support and contradiction confidences yield
SUPPORTED with confidence 0.85 when they are at most 0.4, and CONTRADICTED
through the contradiction dominance rule when they exceed 0.4. -/
theorem C9_local_synthesis_total (s : ℚ) (sr : String) (c : ℚ) (cr : String)
    (vt : String) :
    (ReasoningAgentLocal.synthesize_verdict s sr c cr vt).1 ≠ Verdict.undetermined ∧
    (s = c → ¬ s > 0.4 →
      ReasoningAgentLocal.synthesize_verdict s sr c cr vt =
        (Verdict.supported, 0.85, "Evidence suggests support: " ++ sr)) ∧
    (s = c → s > 0.4 →
      (ReasoningAgentLocal.synthesize_verdict s sr c cr vt).1 =
        Verdict.contradicted) := by
  unfold ReasoningAgentLocal.synthesize_verdict
    ReasoningAgentLocal.CONTRADICTION_THRESHOLD
    ReasoningAgentLocal.STRONG_SUPPORT_THRESHOLD
    ReasoningAgentLocal.WEAK_CONTRADICTION_THRESHOLD
  refine ⟨?_, ?_, ?_⟩
  · split
    · simp
    · split
      · simp
      · split
        · simp
        · split
          · simp
          · split
            · simp
            · simp
  · intro heq h4
    subst heq
    rw [if_neg h4,
      if_neg (by rintro ⟨a, b⟩; linarith : ¬ (s > (0.35 : ℚ) ∧ s < (0.2 : ℚ))),
      if_neg (by rintro ⟨a, b⟩; linarith : ¬ (s ≥ (0.3 : ℚ) ∧ s < (0.2 : ℚ))),
      if_neg (lt_irrefl s), if_neg (lt_irrefl s)]
  · intro heq h4
    subst heq
    rw [if_pos h4]

/-- Witness for C9: equal confidences 0.2 yield SUPPORTED with 0.85, and
equal confidences 0.5 yield CONTRADICTED. -/
theorem C9_witness :
    ReasoningAgentLocal.synthesize_verdict 0.2 "sr" 0.2 "cr" "none" =
      (Verdict.supported, 0.85, "Evidence suggests support: sr") ∧
    (ReasoningAgentLocal.synthesize_verdict 0.5 "sr" 0.5 "cr" "none").1 =
      Verdict.contradicted ∧
    (ReasoningAgentLocal.synthesize_verdict 0.2 "sr" 0.2 "cr" "none").1 ≠
      Verdict.undetermined := by
  refine ⟨?_, ?_, ?_⟩
  · rw [(C9_local_synthesis_total 0.2 "sr" 0.2 "cr" "none").2.1 rfl
      (by with_unfolding_all decide)]
    rfl
  · exact (C9_local_synthesis_total 0.5 "sr" 0.5 "cr" "none").2.2 rfl
      (by with_unfolding_all decide)
  · exact (C9_local_synthesis_total 0.2 "sr" 0.2 "cr" "none").1
